import Mathlib

/-!
Verification of the wall-app-api backend against its specification.

The data model and the pure parts of the logic are embedded from the
source files under `wall_app/` (`core/models.py`,
`accounts/serializers.py`, the test suites); HTTP views that are not
present in the source tree are modelled from the specification, each
such definition marked `Modelled from the spec:` in its doc comment.
-/

/-- Identity record of the User Store (`django.contrib.auth.models.User`
as used by `accounts/serializers.py`): username, first/last name,
email, and the stored credential field `password`. -/
structure User where
  id : Nat
  username : String
  first_name : String
  last_name : String
  email : String
  password : String
deriving Repr, DecidableEq

/-- Profile record (called `SiteUser` in `accounts/serializers.py`,
`Profile` in the test suites): 1:1 extension of a User with `about`
and `profile_pic`. -/
structure Profile where
  id : Nat
  userId : Nat
  about : String
  profile_pic : String
deriving Repr, DecidableEq

/-- Post record (called `Message` in `core/models.py`, `Post` in the
test suites): `content`, owning profile, immutable creation
timestamp. Timestamps are modelled as naturals. -/
structure Post where
  id : Nat
  author : Nat
  content : String
  date_created : Nat
deriving Repr, DecidableEq

/-- Love row: a like relationship between a fan (user) and a post,
referenced by ids. -/
structure Love where
  fan : Nat
  post : Nat
deriving Repr, DecidableEq

/-- The relational database state: the four stores of the system. -/
structure DB where
  users : List User
  profiles : List Profile
  posts : List Post
  loves : List Love
deriving Repr, DecidableEq

def emptyDB : DB := ⟨[], [], [], []⟩

/-- Live count of Love rows referencing a post, computed from the Love
Relationship Store (never cached). -/
def numLoves (db : DB) (postId : Nat) : Nat :=
  (db.loves.filter (fun l => l.post == postId)).length

/-- Whether a Love row for the pair (userId, postId) exists. -/
def inLove (db : DB) (userId postId : Nat) : Bool :=
  db.loves.any (fun l => l.fan == userId && l.post == postId)

/-- Number of Love rows for one (fan, post) pair. -/
def loveRows (db : DB) (userId postId : Nat) : Nat :=
  (db.loves.filter (fun l => l.fan == userId && l.post == postId)).length

/-- Whether a post with the given id exists in the Post Store. -/
def postExists (db : DB) (postId : Nat) : Bool :=
  db.posts.any (fun x => x.id == postId)

/-- Response body of the Love Toggle Service: HTTP status plus, on
success, the post's resulting love count and the caller's love state. -/
structure LoveResponse where
  status : Nat
  num_loves : Option Nat
  in_love : Option Bool
deriving Repr, DecidableEq

/-- Modelled from the spec: the Love Toggle Service `create` operation
(`POST /posts/{id}/love`; `core/views.py` is absent from the source
tree — behavior per spec §4.2 and `core/tests/test_views.py`).
Requires auth (401 otherwise); 404 on unknown post id; inserts a Love
row only if none exists for (user, post); returns 201 with the love
count and love state computed after the mutation. -/
def loveCreate (db : DB) (auth : Option Nat) (postId : Nat) : DB × LoveResponse :=
  match auth with
  | none => (db, ⟨401, none, none⟩)
  | some userId =>
    if postExists db postId then
      let db' := if inLove db userId postId then db
                 else { db with loves := ⟨userId, postId⟩ :: db.loves }
      (db', ⟨201, some (numLoves db' postId), some (inLove db' userId postId)⟩)
    else (db, ⟨404, none, none⟩)

/-- Modelled from the spec: the Love Toggle Service `delete` operation
(`DELETE /posts/{id}/love`; `core/views.py` is absent from the source
tree — behavior per spec §4.2 and `core/tests/test_views.py`).
Requires auth (401 otherwise); 404 on unknown post id; removes the
Love row for (user, post) if present — absence is not an error — and
returns 200 with the love count and love state computed after the
mutation. -/
def loveDelete (db : DB) (auth : Option Nat) (postId : Nat) : DB × LoveResponse :=
  match auth with
  | none => (db, ⟨401, none, none⟩)
  | some userId =>
    if postExists db postId then
      let db' := { db with
        loves := db.loves.filter (fun l => !(l.fan == userId && l.post == postId)) }
      (db', ⟨200, some (numLoves db' postId), some (inLove db' userId postId)⟩)
    else (db, ⟨404, none, none⟩)

/-- Chronological feed order: newest first (creation time descending). -/
def chronLe (a b : Post) : Prop := b.date_created ≤ a.date_created

/-- Default ordering of the Post Store, embedded from
`Message.Meta.ordering = ('date_created',)` in `core/models.py`:
creation time ascending. -/
def dateAsc (a b : Post) : Prop := a.date_created ≤ b.date_created

/-- Top feed order for a given database: descending live Love-row
count, ties broken by creation time descending. -/
def topLe (db : DB) (a b : Post) : Prop :=
  numLoves db b.id < numLoves db a.id ∨
    (numLoves db a.id = numLoves db b.id ∧ b.date_created ≤ a.date_created)

instance : DecidableRel chronLe := fun a b =>
  inferInstanceAs (Decidable (b.date_created ≤ a.date_created))

instance : DecidableRel dateAsc := fun a b =>
  inferInstanceAs (Decidable (a.date_created ≤ b.date_created))

instance (db : DB) : DecidableRel (topLe db) := fun _ _ =>
  inferInstanceAs (Decidable (_ ∨ _ ∧ _))

instance : IsTotal Post chronLe := ⟨fun a b => Nat.le_total b.date_created a.date_created⟩

instance : IsTrans Post chronLe :=
  ⟨fun _ _ _ h h' => Nat.le_trans h' h⟩

instance : IsTotal Post dateAsc := ⟨fun a b => Nat.le_total a.date_created b.date_created⟩

instance : IsTrans Post dateAsc :=
  ⟨fun _ _ _ h h' => Nat.le_trans h h'⟩

instance (db : DB) : IsTotal Post (topLe db) :=
  ⟨fun a b => by
    unfold topLe
    rcases Nat.lt_trichotomy (numLoves db a.id) (numLoves db b.id) with h | h | h
    · exact Or.inr (Or.inl h)
    · rcases Nat.le_total b.date_created a.date_created with h' | h'
      · exact Or.inl (Or.inr ⟨h, h'⟩)
      · exact Or.inr (Or.inr ⟨h.symm, h'⟩)
    · exact Or.inl (Or.inl h)⟩

instance (db : DB) : IsTrans Post (topLe db) :=
  ⟨fun _ _ _ h h' => by
    unfold topLe at *
    rcases h with h | ⟨he, hd⟩ <;> rcases h' with h' | ⟨he', hd'⟩
    · exact Or.inl (Nat.lt_trans h' h)
    · exact Or.inl (he' ▸ h)
    · exact Or.inl (he ▸ h')
    · exact Or.inr ⟨he.trans he', Nat.le_trans hd' hd⟩⟩

/-- The Post Store read in its default (model-level) ordering:
creation time ascending, per `Message.Meta` in `core/models.py`. -/
def defaultPostOrdering (db : DB) : List Post :=
  List.insertionSort dateAsc db.posts

/-- Response of the post-list endpoint: status and the ordered page of
results. -/
structure PostListResponse where
  status : Nat
  results : List Post
deriving Repr, DecidableEq

/-- Modelled from the spec: the Feed Query Engine
(`GET /posts?q=top&limit=N`; `core/views.py` and `core/pagination.py`
are absent from the source tree — behavior per spec §4.1 and
`core/tests/test_views.py`). Anonymous access is allowed and caller
identity does not affect the visible posts. `q=top` ranks by
descending live love count with newest-first tie-break; the default
mode is newest-first chronological. A caller-supplied `limit`
overrides the page size; the page-size constant itself is not in the
source tree, so without `limit` the whole ordered sequence is
returned. -/
def postList (db : DB) (_auth : Option Nat) (q : Option String) (limit : Option Nat) :
    PostListResponse :=
  let ordered := if q == some "top" then List.insertionSort (topLe db) db.posts
                 else List.insertionSort chronLe db.posts
  let page := match limit with
              | some n => ordered.take n
              | none => ordered
  ⟨200, page⟩

/-- Fresh id for a new post. -/
def freshPostId (db : DB) : Nat :=
  db.posts.foldr (fun p acc => max (p.id + 1) acc) 0

/-- Modelled from the spec: `POST /posts` (`core/views.py` is absent
from the source tree — behavior per spec §4.1 and
`core/tests/test_views.py`). Requires auth (401 otherwise); creates a
post owned by the authenticated caller and returns 201. -/
def postCreate (db : DB) (auth : Option Nat) (content : String) (now : Nat) : DB × Nat :=
  match auth with
  | none => (db, 401)
  | some userId =>
    ({ db with posts := ⟨freshPostId db, userId, content, now⟩ :: db.posts }, 201)

/-- Registration input, embedded from the `RegisterSerializer` field
declarations in `accounts/serializers.py`. -/
structure RegisterData where
  username : String
  first_name : String
  last_name : String
  email : String
  password1 : String
  password2 : String
  about : String
  profile_pic : String
deriving Repr, DecidableEq

/-- Field-level validation embedded from the `RegisterSerializer`
field declarations (`accounts/serializers.py`): username length in
[5, 15], first/last name at most 50 characters, email required
(modelled as nonempty), about at most 250 characters, profile_pic a
nonempty URL of at most 200 characters. -/
def fieldsValid (d : RegisterData) : Bool :=
  5 ≤ d.username.length && d.username.length ≤ 15 &&
  d.first_name.length ≤ 50 && d.last_name.length ≤ 50 &&
  0 < d.email.length &&
  d.about.length ≤ 250 &&
  0 < d.profile_pic.length && d.profile_pic.length ≤ 200

/-- Embeds `RegisterSerializer.validate` (`accounts/serializers.py`):
the two submitted passwords must match. -/
def validatePasswords (d : RegisterData) : Bool :=
  d.password1 == d.password2

/-- Fresh id for a new user (and its profile). -/
def freshUserId (db : DB) : Nat :=
  db.users.foldr (fun u acc => max (u.id + 1) acc) 0

/-- Embeds `RegisterSerializer.save` (`accounts/serializers.py`):
`User.objects.create(..., password=validated_data['password1'])`
stores the `password` field verbatim — Django's `Manager.create` does
not hash — then `SiteUser.objects.create(user=user, ...)` creates the
linked profile. -/
def registerSave (db : DB) (d : RegisterData) : DB × User × Profile :=
  let user : User :=
    ⟨freshUserId db, d.username, d.first_name, d.last_name, d.email, d.password1⟩
  let prof : Profile := ⟨freshUserId db, user.id, d.about, d.profile_pic⟩
  ({ db with users := user :: db.users, profiles := prof :: db.profiles }, user, prof)

/-- Serialized output of a registered user+profile: the readable
fields of `RegisterSerializer` (`accounts/serializers.py`); `password1`
and `password2` are declared `write_only=True` and therefore excluded
from every representation. -/
def registerRepresentation (u : User) (p : Profile) : List (String × String) :=
  [("username", u.username), ("first_name", u.first_name),
   ("last_name", u.last_name), ("email", u.email),
   ("about", p.about), ("profile_pic", p.profile_pic)]

/-- Outcome of a registration request. -/
structure RegisterResult where
  db : DB
  status : Nat
  body : List (String × String)
  emailSent : Bool
deriving Repr, DecidableEq

/-- Modelled from the spec: `POST /register` (`accounts/views.py`
`RegistrationView` is absent from the source tree — behavior per spec
§6 and `accounts/tests/test_api_views.py`). Validation is the
serializer's, embedded from `accounts/serializers.py`: on failure 400
and nothing is created; on success `RegisterSerializer.save` runs, a
welcome email is triggered, and 201 is returned with the profile
representation. -/
def register (db : DB) (d : RegisterData) : RegisterResult :=
  if fieldsValid d && validatePasswords d then
    let (db', u, p) := registerSave db d
    ⟨db', 201, registerRepresentation u p, true⟩
  else
    ⟨db, 400, [], false⟩

/-- Response of the profile endpoint. -/
structure ProfileResponse where
  status : Nat
  body : List (String × String)
deriving Repr, DecidableEq

/-- Modelled from the spec: `GET /profile` (`accounts/views.py` is
absent from the source tree — behavior per spec §6 and
`accounts/tests/test_api_views.py`): requires auth (401 otherwise);
returns the user's identity fields — never the stored credential —
plus `about` and `profile_pic`. -/
def profileDetail (db : DB) (auth : Option Nat) : ProfileResponse :=
  match auth with
  | none => ⟨401, []⟩
  | some uid =>
    match db.users.find? (fun u => u.id == uid),
          db.profiles.find? (fun p => p.userId == uid) with
    | some u, some p =>
      ⟨200, [("username", u.username), ("first_name", u.first_name),
             ("last_name", u.last_name), ("email", u.email),
             ("about", p.about), ("profile_pic", p.profile_pic)]⟩
    | _, _ => ⟨404, []⟩

/-- The Love-uniqueness invariant: at most one Love row per
(fan, post) pair. -/
def LoveUnique (db : DB) : Prop :=
  ∀ u p, loveRows db u p ≤ 1

/-- States reachable from the empty database through the system's
operations. -/
inductive Reachable : DB → Prop where
  | init : Reachable emptyDB
  | step_register (db : DB) (d : RegisterData) :
      Reachable db → Reachable (register db d).db
  | step_postCreate (db : DB) (a : Option Nat) (c : String) (t : Nat) :
      Reachable db → Reachable (postCreate db a c t).1
  | step_loveCreate (db : DB) (a : Option Nat) (p : Nat) :
      Reachable db → Reachable (loveCreate db a p).1
  | step_loveDelete (db : DB) (a : Option Nat) (p : Nat) :
      Reachable db → Reachable (loveDelete db a p).1

/-- Keys of a serialized JSON-like body. -/
def keysOf (l : List (String × String)) : List String :=
  l.map Prod.fst

/-- Overwrite both password fields of a registration payload. -/
def setPasswords (d : RegisterData) (p : String) : RegisterData :=
  { d with password1 := p, password2 := p }

/-! ### Concrete fixtures -/

/-- P0 of the spec example: created first, zero loves. -/
def pA : Post := ⟨0, 1, "first post", 0⟩

/-- P1 of the spec example: created second, one love. -/
def pB : Post := ⟨1, 1, "second post", 1⟩

/-- P2 of the spec example: created third, two loves. -/
def pC : Post := ⟨2, 1, "third post", 2⟩

/-- Database realizing the spec example: posts P0, P1, P2 created in
that order with 0, 1 and 2 loves respectively. -/
def exampleDB : DB := ⟨[], [], [pA, pB, pC], [⟨1, 1⟩, ⟨1, 2⟩, ⟨2, 2⟩]⟩

/-- A database with one post and no loves, for concrete witnesses. -/
def witnessDB : DB := ⟨[], [], [⟨0, 1, "hello wall", 5⟩], []⟩

/-- The registration payload of
`accounts/tests/test_api_views.py` (USER_DATA + PROFILE_DATA). -/
def samplePayload : RegisterData :=
  ⟨"john_doe", "John", "Doe", "john_doe@wall.com", "notsecret", "notsecret",
   "Unknown Soldier", "http://unknown-domain.com/does-not-exist.jpg"⟩

/-- The same payload with a second password that differs from the
first, as in the mismatched-password test. -/
def mismatchPayload : RegisterData :=
  ⟨"john_doe", "John", "Doe", "john_doe@wall.com", "notsecret", "password2",
   "Unknown Soldier", "http://unknown-domain.com/does-not-exist.jpg"⟩

/-! ### Lemmas about the Love Relationship Store -/

theorem loveRows_eq_zero_iff (db : DB) (u p : Nat) :
    loveRows db u p = 0 ↔ inLove db u p = false := by
  simp [loveRows, inLove, List.length_eq_zero, List.filter_eq_nil_iff]

theorem inLove_true_loveRows_pos (db : DB) (u p : Nat)
    (h : inLove db u p = true) : 1 ≤ loveRows db u p := by
  rcases Nat.eq_zero_or_pos (loveRows db u p) with h0 | h1
  · rw [loveRows_eq_zero_iff] at h0; simp [h0] at h
  · exact h1

theorem loveUnique_loveCreate (db : DB) (a : Option Nat) (q : Nat)
    (h : LoveUnique db) : LoveUnique (loveCreate db a q).1 := by
  cases a with
  | none => exact h
  | some uid =>
    simp only [loveCreate]
    by_cases hp : postExists db q = true
    · rw [if_pos hp]
      by_cases hl : inLove db uid q = true
      · rw [if_pos hl]; exact h
      · simp only [Bool.not_eq_true] at hl
        simp only [hl, Bool.false_eq_true, if_false]
        intro u p
        simp only [loveRows, List.filter_cons]
        by_cases hm : (uid == u && q == p) = true
        · simp only [hm, if_true, List.length_cons]
          simp only [Bool.and_eq_true, beq_iff_eq] at hm
          obtain ⟨h1, h2⟩ := hm
          have h0 : loveRows db u p = 0 := by
            rw [loveRows_eq_zero_iff, ← h1, ← h2]
            exact hl
          simp only [loveRows] at h0
          omega
        · simp only [hm, if_false]
          exact h u p
    · rw [if_neg hp]
      exact h

theorem loveUnique_loveDelete (db : DB) (a : Option Nat) (q : Nat)
    (h : LoveUnique db) : LoveUnique (loveDelete db a q).1 := by
  cases a with
  | none => exact h
  | some uid =>
    simp only [loveDelete]
    by_cases hp : postExists db q = true
    · rw [if_pos hp]
      intro u p
      refine Nat.le_trans ?_ (h u p)
      simp only [loveRows]
      exact ((List.filter_sublist _).filter _).length_le
    · rw [if_neg hp]
      exact h

theorem loveRows_register (db : DB) (d : RegisterData) (u p : Nat) :
    loveRows (register db d).db u p = loveRows db u p := by
  unfold register registerSave
  split <;> simp [loveRows]

theorem loveRows_postCreate (db : DB) (a : Option Nat) (c : String) (t : Nat) (u p : Nat) :
    loveRows (postCreate db a c t).1 u p = loveRows db u p := by
  cases a <;> simp [postCreate, loveRows]

theorem reachable_loveUnique : ∀ db, Reachable db → LoveUnique db := by
  intro db h
  induction h with
  | init => intro u p; simp [loveRows, emptyDB]
  | step_register db d _ ih => intro u p; rw [loveRows_register]; exact ih u p
  | step_postCreate db a c t _ ih => intro u p; rw [loveRows_postCreate]; exact ih u p
  | step_loveCreate db a q _ ih => exact loveUnique_loveCreate db a q ih
  | step_loveDelete db a q _ ih => exact loveUnique_loveDelete db a q ih

theorem postExists_loveCreate (db : DB) (a : Option Nat) (q r : Nat) :
    postExists (loveCreate db a q).1 r = postExists db r := by
  cases a with
  | none => rfl
  | some uid =>
    simp only [loveCreate]
    by_cases hp : postExists db q = true
    · rw [if_pos hp]
      by_cases hl : inLove db uid q = true <;> simp [hl, postExists]
    · rw [if_neg hp]

theorem inLove_loveCreate_self (db : DB) (uid q : Nat) (hp : postExists db q = true) :
    inLove (loveCreate db (some uid) q).1 uid q = true := by
  simp only [loveCreate]
  rw [if_pos hp]
  by_cases hl : inLove db uid q = true
  · rw [if_pos hl]; exact hl
  · rw [if_neg hl]
    simp [inLove]

theorem double_love_create (db : DB) (uid pid : Nat)
    (h : LoveUnique db) (hp : postExists db pid = true) :
    loveRows (loveCreate (loveCreate db (some uid) pid).1 (some uid) pid).1 uid pid = 1 ∧
    (loveCreate (loveCreate db (some uid) pid).1 (some uid) pid).2.num_loves
      = (loveCreate db (some uid) pid).2.num_loves := by
  have h1 : LoveUnique (loveCreate db (some uid) pid).1 :=
    loveUnique_loveCreate db (some uid) pid h
  have hin : inLove (loveCreate db (some uid) pid).1 uid pid = true :=
    inLove_loveCreate_self db uid pid hp
  have hpe : postExists (loveCreate db (some uid) pid).1 pid = true := by
    rw [postExists_loveCreate]; exact hp
  have hrows : loveRows (loveCreate db (some uid) pid).1 uid pid = 1 :=
    Nat.le_antisymm (h1 uid pid) (inLove_true_loveRows_pos _ uid pid hin)
  constructor
  · conv_lhs => rw [loveCreate]
    rw [if_pos hpe, if_pos hin]
    exact hrows
  · conv_lhs => rw [loveCreate]
    rw [if_pos hpe]
    simp only [hin, if_true]
    rw [loveCreate, if_pos hp]

theorem loveDelete_db_of_not_inLove (db : DB) (u p : Nat)
    (hp : postExists db p = true) (hl : inLove db u p = false) :
    (loveDelete db (some u) p).1 = db := by
  have hfe : db.loves.filter (fun l => !(l.fan == u && l.post == p)) = db.loves := by
    rw [List.filter_eq_self]
    intro a ha
    simp only [inLove, List.any_eq_false] at hl
    have hx := hl a ha
    rw [Bool.not_eq_true] at hx
    simp only [Bool.not_eq_true']
    exact hx
  simp only [loveDelete]
  rw [if_pos hp]
  show { db with loves := _ } = db
  rw [hfe]

theorem loveDelete_components (db : DB) (u p : Nat) (hp : postExists db p = true) :
    (loveDelete db (some u) p).2.status = 200 ∧
    (loveDelete db (some u) p).2.num_loves = some (numLoves (loveDelete db (some u) p).1 p) ∧
    (loveDelete db (some u) p).2.in_love = some (inLove (loveDelete db (some u) p).1 u p) := by
  simp only [loveDelete]
  rw [if_pos hp]
  exact ⟨rfl, rfl, rfl⟩

theorem loveCreate_components (db : DB) (u p : Nat) (hp : postExists db p = true) :
    (loveCreate db (some u) p).2.status = 201 ∧
    (loveCreate db (some u) p).2.num_loves = some (numLoves (loveCreate db (some u) p).1 p) ∧
    (loveCreate db (some u) p).2.in_love = some (inLove (loveCreate db (some u) p).1 u p) := by
  simp only [loveCreate]
  rw [if_pos hp]
  exact ⟨rfl, rfl, rfl⟩

theorem inLove_loveDelete_self (db : DB) (u p : Nat) (hp : postExists db p = true) :
    inLove (loveDelete db (some u) p).1 u p = false := by
  simp only [loveDelete]
  rw [if_pos hp]
  simp only [inLove, List.any_eq_false]
  intro a ha
  rw [List.mem_filter] at ha
  have hx := ha.2
  rw [Bool.not_eq_true'] at hx
  rw [Bool.not_eq_true]
  exact hx

/-! ### Claim theorems -/

/-- C1: for every database, the feed in top mode (`q=top`) returns the
posts ordered by descending live Love-row count with ties broken by
creation time descending (a permutation of the Post Store), and a
`limit` override returns exactly the first `limit` of them; in
particular, for posts P0 (0 loves), P1 (1 love), P2 (2 loves) created
in that order, `q=top` returns [P2, P1, P0] and `q=top&limit=2`
returns exactly [P2, P1]. -/
theorem top_feed_ranking :
    (∀ db a, ((postList db a (some "top") none).results).Sorted (topLe db) ∧
      ((postList db a (some "top") none).results).Perm db.posts ∧
      ∀ n, (postList db a (some "top") (some n)).results
            = ((postList db a (some "top") none).results).take n) ∧
    (postList exampleDB none (some "top") none).results = [pC, pB, pA] ∧
    (postList exampleDB none (some "top") (some 2)).results = [pC, pB] :=
  ⟨fun db a =>
    ⟨by simpa [postList] using List.sorted_insertionSort (topLe db) db.posts,
     by simpa [postList] using List.perm_insertionSort (topLe db) db.posts,
     fun n => rfl⟩,
   by decide, by decide⟩

/-- C2: at every state reachable through the system operations, at
most one Love row exists per (fan, post) pair; and performing the
love-create operation twice in sequence for the same (user, post)
pair on an existing post leaves exactly one Love row and leaves the
reported `num_loves` unchanged after the second call. -/
theorem love_row_uniqueness :
    (∀ db, Reachable db → LoveUnique db) ∧
    (∀ db uid pid, LoveUnique db → postExists db pid = true →
      loveRows (loveCreate (loveCreate db (some uid) pid).1 (some uid) pid).1 uid pid = 1 ∧
      (loveCreate (loveCreate db (some uid) pid).1 (some uid) pid).2.num_loves
        = (loveCreate db (some uid) pid).2.num_loves) :=
  ⟨reachable_loveUnique, fun db uid pid h hp => double_love_create db uid pid h hp⟩

/-- Witness for C2: the invariant at the initial state, and the
double-create property at a concrete database with one post. -/
theorem love_row_uniqueness_witness :
    LoveUnique emptyDB ∧
    (loveRows (loveCreate (loveCreate witnessDB (some 7) 0).1 (some 7) 0).1 7 0 = 1 ∧
     (loveCreate (loveCreate witnessDB (some 7) 0).1 (some 7) 0).2.num_loves
       = (loveCreate witnessDB (some 7) 0).2.num_loves) :=
  ⟨love_row_uniqueness.1 emptyDB Reachable.init,
   love_row_uniqueness.2 witnessDB 7 0 (fun u p => by simp [loveRows, witnessDB])
     (by decide)⟩

/-- C3: for every authenticated user and every existing post with no
Love row for that (user, post) pair, the unlove operation returns
status 200 (not an error), leaves the database — hence `num_loves` —
unchanged, and reports the unchanged love count. -/
theorem unlove_never_loved (db : DB) (u p : Nat)
    (hp : postExists db p = true) (hl : inLove db u p = false) :
    (loveDelete db (some u) p).2.status = 200 ∧
    (loveDelete db (some u) p).1 = db ∧
    (loveDelete db (some u) p).2.num_loves = some (numLoves db p) := by
  have hc := loveDelete_components db u p hp
  have hdb := loveDelete_db_of_not_inLove db u p hp hl
  refine ⟨hc.1, hdb, ?_⟩
  rw [hc.2.1, hdb]

/-- Witness for C3: unloving the never-loved post of `witnessDB`. -/
theorem unlove_never_loved_witness :
    postExists witnessDB 0 = true ∧ inLove witnessDB 7 0 = false ∧
    ((loveDelete witnessDB (some 7) 0).2.status = 200 ∧
     (loveDelete witnessDB (some 7) 0).1 = witnessDB ∧
     (loveDelete witnessDB (some 7) 0).2.num_loves = some (numLoves witnessDB 0)) :=
  ⟨by decide, by decide, unlove_never_loved witnessDB 7 0 (by decide) (by decide)⟩

/-- C4: for every authenticated love-create and love-delete on an
existing post, the response carries the post total love count and the
`in_love` flag, both computed on the post-mutation state; create
returns 201 with `in_love` true, delete returns 200 with `in_love`
false. -/
theorem love_toggle_response (db : DB) (u p : Nat) (hp : postExists db p = true) :
    (loveCreate db (some u) p).2.status = 201 ∧
    (loveCreate db (some u) p).2.num_loves
      = some (numLoves (loveCreate db (some u) p).1 p) ∧
    (loveCreate db (some u) p).2.in_love = some true ∧
    (loveDelete db (some u) p).2.status = 200 ∧
    (loveDelete db (some u) p).2.num_loves
      = some (numLoves (loveDelete db (some u) p).1 p) ∧
    (loveDelete db (some u) p).2.in_love = some false := by
  have hc := loveCreate_components db u p hp
  have hd := loveDelete_components db u p hp
  refine ⟨hc.1, hc.2.1, ?_, hd.1, hd.2.1, ?_⟩
  · rw [hc.2.2, inLove_loveCreate_self db u p hp]
  · rw [hd.2.2, inLove_loveDelete_self db u p hp]

/-- Witness for C4: the love-toggle responses on the post of
`witnessDB`. -/
theorem love_toggle_response_witness :
    postExists witnessDB 0 = true ∧
    ((loveCreate witnessDB (some 7) 0).2.status = 201 ∧
     (loveCreate witnessDB (some 7) 0).2.num_loves
       = some (numLoves (loveCreate witnessDB (some 7) 0).1 0) ∧
     (loveCreate witnessDB (some 7) 0).2.in_love = some true ∧
     (loveDelete witnessDB (some 7) 0).2.status = 200 ∧
     (loveDelete witnessDB (some 7) 0).2.num_loves
       = some (numLoves (loveDelete witnessDB (some 7) 0).1 0) ∧
     (loveDelete witnessDB (some 7) 0).2.in_love = some false) :=
  ⟨by decide, love_toggle_response witnessDB 7 0 (by decide)⟩

/-- C5: for every database, the feed in chronological (default) mode
returns the posts ordered by creation time descending — strictly
descending whenever creation times are distinct — even though the
Post Store default ordering (`Message.Meta` in `core/models.py`) is
creation time ascending. -/
theorem chronological_feed :
    (∀ db a, ((postList db a none none).results).Sorted chronLe ∧
      ((postList db a none none).results).Perm db.posts ∧
      (defaultPostOrdering db).Sorted dateAsc ∧
      ((db.posts.map Post.date_created).Nodup →
        ((postList db a none none).results).Pairwise
          (fun x y => y.date_created < x.date_created))) ∧
    (postList exampleDB none none none).results = [pC, pB, pA] ∧
    defaultPostOrdering exampleDB = [pA, pB, pC] := by
  refine ⟨fun db a => ?_, by decide, by decide⟩
  have hs : ((postList db a none none).results).Sorted chronLe := by
    simpa [postList] using List.sorted_insertionSort chronLe db.posts
  have hperm : ((postList db a none none).results).Perm db.posts := by
    simpa [postList] using List.perm_insertionSort chronLe db.posts
  refine ⟨hs, hperm, List.sorted_insertionSort dateAsc db.posts, fun hnd => ?_⟩
  have hnd' : (((postList db a none none).results).map Post.date_created).Nodup :=
    (hperm.map Post.date_created).nodup_iff.mpr hnd
  have hne : ((postList db a none none).results).Pairwise
      (fun x y => Post.date_created x ≠ Post.date_created y) :=
    List.pairwise_map.mp hnd'
  exact (hs.and hne).imp (fun h =>
    Nat.lt_of_le_of_ne h.1 (fun he => h.2 he.symm))

/-- Witness for C5: strict descending order on the concrete example
database, whose creation times are pairwise distinct. -/
theorem chronological_feed_witness :
    (exampleDB.posts.map Post.date_created).Nodup ∧
    ((postList exampleDB none none none).results).Pairwise
      (fun x y => y.date_created < x.date_created) :=
  ⟨by decide, (chronological_feed.1 exampleDB none).2.2.2 (by decide)⟩

/-- C6: for every database, an unauthenticated GET on the post list
succeeds with status 200 and returns exactly the results an
authenticated caller gets, while unauthenticated writes — creating a
post, loving, unloving — fail with status 401 and leave the database
unchanged. -/
theorem anonymous_access (db : DB) (q : Option String) (lim : Option Nat)
    (u : Nat) (c : String) (t p : Nat) :
    (postList db none q lim).status = 200 ∧
    (postList db none q lim).results = (postList db (some u) q lim).results ∧
    (postCreate db none c t).2 = 401 ∧ (postCreate db none c t).1 = db ∧
    (loveCreate db none p).2.status = 401 ∧ (loveCreate db none p).1 = db ∧
    (loveDelete db none p).2.status = 401 ∧ (loveDelete db none p).1 = db :=
  ⟨rfl, rfl, rfl, rfl, rfl, rfl, rfl, rfl⟩

/-- C7: for every registration payload whose two passwords differ,
registration fails with status 400 and is atomic on error: the
database is unchanged (no User, no Profile), nothing is serialized
and no email is sent. -/
theorem mismatched_passwords_rejected (db : DB) (d : RegisterData)
    (h : d.password1 ≠ d.password2) :
    (register db d).status = 400 ∧ (register db d).db = db ∧
    (register db d).body = [] ∧ (register db d).emailSent = false := by
  have hv : validatePasswords d = false := by
    simp [validatePasswords, h]
  simp [register, hv]

/-- Witness for C7: the mismatched payload of the test suite. -/
theorem mismatched_passwords_rejected_witness :
    mismatchPayload.password1 ≠ mismatchPayload.password2 ∧
    ((register emptyDB mismatchPayload).status = 400 ∧
     (register emptyDB mismatchPayload).db = emptyDB ∧
     (register emptyDB mismatchPayload).body = [] ∧
     (register emptyDB mismatchPayload).emailSent = false) :=
  ⟨by decide, mismatched_passwords_rejected emptyDB mismatchPayload (by decide)⟩

/-- C8: for every valid registration payload with matching passwords
(username length in [5,15] is part of field validity), registration
returns 201, creates exactly one new User and one new Profile linked
1:1 with the submitted username, triggers the welcome email, and from
the empty database exactly one Profile exists afterwards. -/
theorem registration_success (db : DB) (d : RegisterData)
    (hf : fieldsValid d = true) (hp : d.password1 = d.password2) :
    (register db d).status = 201 ∧
    (register db d).db.profiles.length = db.profiles.length + 1 ∧
    (∃ u prof, (register db d).db.users = u :: db.users ∧
      (register db d).db.profiles = prof :: db.profiles ∧
      prof.userId = u.id ∧ u.username = d.username) ∧
    (register db d).emailSent = true ∧
    (register emptyDB d).db.profiles.length = 1 := by
  have hv : validatePasswords d = true := by
    simp [validatePasswords, hp]
  have hcond : (fieldsValid d && validatePasswords d) = true := by simp [hf, hv]
  have hreg : ∀ base : DB, register base d =
      ⟨(registerSave base d).1, 201,
        registerRepresentation (registerSave base d).2.1 (registerSave base d).2.2,
        true⟩ := fun base => by
    unfold register
    rw [if_pos hcond]
  rw [hreg db, hreg emptyDB]
  exact ⟨rfl, rfl, ⟨_, _, rfl, rfl, rfl, rfl⟩, rfl, rfl⟩

/-- Witness for C8: registering the valid payload of the test suite
from the empty database. -/
theorem registration_success_witness :
    fieldsValid samplePayload = true ∧
    samplePayload.password1 = samplePayload.password2 ∧
    ((register emptyDB samplePayload).status = 201 ∧
     (register emptyDB samplePayload).db.profiles.length
       = emptyDB.profiles.length + 1 ∧
     (∃ u prof, (register emptyDB samplePayload).db.users = u :: emptyDB.users ∧
       (register emptyDB samplePayload).db.profiles = prof :: emptyDB.profiles ∧
       prof.userId = u.id ∧ u.username = samplePayload.username) ∧
     (register emptyDB samplePayload).emailSent = true ∧
     (register emptyDB samplePayload).db.profiles.length = 1) :=
  ⟨by decide, rfl, registration_success emptyDB samplePayload (by decide) rfl⟩

/-- C9: evidence against the claim that registration stores a hash of
the submitted password: `RegisterSerializer.save` passes the raw
`password1` to `User.objects.create`, which stores the field
verbatim, so after a successful registration the stored credential
field is exactly the plaintext `password1`. -/
theorem register_stores_plaintext_password :
    (register emptyDB samplePayload).status = 201 ∧
    (register emptyDB samplePayload).db.users.head?.map User.password
      = some samplePayload.password1 ∧
    samplePayload.password1 = "notsecret" :=
  ⟨rfl, rfl, rfl⟩

/-- C10: no API output representation carries the submitted password:
the registration response body and the profile-detail body contain no
`password`, `password1` or `password2` key, and the registration
response (status, body, email flag) is unchanged when the submitted
password is replaced by any other — the password never flows into the
output. -/
theorem no_password_in_output :
    (∀ db d, "password" ∉ keysOf (register db d).body ∧
      "password1" ∉ keysOf (register db d).body ∧
      "password2" ∉ keysOf (register db d).body) ∧
    (∀ db a, "password" ∉ keysOf (profileDetail db a).body ∧
      "password1" ∉ keysOf (profileDetail db a).body ∧
      "password2" ∉ keysOf (profileDetail db a).body) ∧
    (∀ db d p q,
      (register db (setPasswords d p)).status = (register db (setPasswords d q)).status ∧
      (register db (setPasswords d p)).body = (register db (setPasswords d q)).body ∧
      (register db (setPasswords d p)).emailSent
        = (register db (setPasswords d q)).emailSent) := by
  refine ⟨fun db d => ?_, fun db a => ?_, fun db d p q => ?_⟩
  · unfold register
    split <;> simp [keysOf, registerRepresentation, registerSave]
  · cases a with
    | none => simp [profileDetail, keysOf]
    | some uid =>
      simp only [profileDetail]
      split <;> simp [keysOf]
  · have hv : ∀ s, validatePasswords (setPasswords d s) = true := fun s => by
      simp [validatePasswords, setPasswords]
    have hcond : ∀ s,
        (fieldsValid (setPasswords d s) && validatePasswords (setPasswords d s))
          = fieldsValid d := fun s => by
      rw [hv s, Bool.and_true]; rfl
    by_cases hf : fieldsValid d = true
    · have e : ∀ s, register db (setPasswords d s) =
          ⟨(registerSave db (setPasswords d s)).1, 201,
            registerRepresentation (registerSave db (setPasswords d s)).2.1
              (registerSave db (setPasswords d s)).2.2, true⟩ := fun s => by
        unfold register
        rw [if_pos ((hcond s).trans hf)]
      rw [e p, e q]
      exact ⟨rfl, rfl, rfl⟩
    · have e : ∀ s, register db (setPasswords d s) = ⟨db, 400, [], false⟩ := fun s => by
        unfold register
        rw [if_neg]
        rw [hcond s]
        exact hf
      rw [e p, e q]
      exact ⟨rfl, rfl, rfl⟩
